import Mathlib

/-!
Shallow embedding of the core of `bt-obd-gw`: the ELM327 protocol engine
(`src/elm327.rs`), the SPP transport buffers and event dispatcher
(`src/spp_handler.rs`), and the HTTP request surface (`src/main.rs`).
Bytes are modelled as `Nat` (the Rust code works on `u8`; every byte the
claims touch is below 256 and no arithmetic overflows occur on the modelled
paths). Fallible Rust paths are modelled with `Except`/`Option`, and the
asynchronous reads of the Bluetooth link are modelled as an oracle stream
of successful chunk reads.
-/

namespace BtObdGw

/-! ## Elm327::read_response (src/elm327.rs, lines 77-118) -/

/-- Carriage-return byte filtered by `read_response`. -/
def CR : Nat := 13

/-- Line-feed byte filtered by `read_response`. -/
def LF : Nat := 10

/-- The ELM327 prompt byte `>` that terminates a response. -/
def PROMPT : Nat := 62

/-- The per-chunk filter of `read_response`: each byte of the chunk that is
not `\r`, `\n` or `>` is pushed onto the accumulator
(`if *b != b'\r' && *b != b'\n' && *b != b'>' { response.push(*b) }`). -/
def filterChunk (buf : List Nat) : List Nat :=
  buf.filter (fun b => b != CR && b != LF && b != PROMPT)

/-- The termination test of `read_response`:
`bytes_read > 0 && buf[bytes_read - 1] == b'>'` — the raw, unfiltered last
byte of the chunk is compared with the prompt byte, after the chunk has
already been filtered onto the accumulator. -/
def promptTerminated (buf : List Nat) : Bool :=
  buf.getLast? == some PROMPT

/-- The read loop of `Elm327::read_response`, over an oracle `chunks` giving
the successful result of each `port.read` call (`chunks idx` is the chunk
returned by the `idx`-th read; read errors are outside the modelled stream,
they propagate out of the loop via `?`). The Rust loop increments
`loop_count` at the top of each iteration and breaks, before reading, when
it reaches 50; `fuel` here is `49 - loop_count` at the top of the
iteration, so the Rust break test `loop_count == 50` (after the increment)
is exactly `fuel = 0` and the loop is entered with `fuel = 49`. Each
iteration reads one chunk, filters it onto the accumulator, and then tests
the raw chunk for prompt termination. Returns the accumulated filtered
bytes and the number of chunk reads performed. -/
def readLoop (chunks : Nat → List Nat) : Nat → Nat → List Nat → Nat → List Nat × Nat
  | 0, _idx, acc, reads => (acc, reads)
  | fuel + 1, idx, acc, reads =>
    let buf := chunks idx
    let acc2 := acc ++ filterChunk buf
    if promptTerminated buf then (acc2, reads + 1)
    else readLoop chunks fuel (idx + 1) acc2 (reads + 1)

/-- `Elm327::read_response` down to (but not including) the final
`String::from_utf8` decode: the accumulated response bytes and the number
of chunk reads performed. Entered with `loop_count = 0`, i.e. `fuel = 49`. -/
def read_response (chunks : Nat → List Nat) : List Nat × Nat :=
  readLoop chunks 49 0 [] 0

/-- ASCII view of a string as its byte values; used to state expected
response texts (all texts involved are 7-bit ASCII, where UTF-8 decoding
is the identity on these byte values). -/
def asciiBytes (s : String) : List Nat :=
  s.data.map Char.toNat

/-! ## SppHandler write path (src/spp_handler.rs) -/

/-- Capacity of the outbound circular write buffer
(`const WRITE_BUF_SIZE: usize = 250`). -/
def WRITE_BUF_SIZE : Nat := 250

/-- Mirrors `CircularBuffer::<CAP, u8>::extend_from_slice`: the slice is
appended at the back; when the total exceeds the capacity, elements are
dropped from the front (oldest first) so that exactly the last `cap`
elements remain. -/
def extendFromSlice (cap : Nat) (q buf : List Nat) : List Nat :=
  let l := q ++ buf
  l.drop (l.length - cap)

/-- Error values surfaced by the modelled `SppHandler` write path:
`io::ErrorKind::InvalidInput` (the "buf too large" rejection in
`extend_write_buf`) and `io::ErrorKind::ConnectionReset` (a failed
`spp.write` inside `flush`). -/
inductive SppIoError
  | invalidInput
  | connectionReset
deriving DecidableEq, Repr

/-- Mirrors `SppHandler::extend_write_buf`: reject with `InvalidInput`
before touching the buffer when the slice alone is longer than
`WRITE_BUF_SIZE`; otherwise extend the circular buffer under the lock. -/
def extend_write_buf (q buf : List Nat) : Except SppIoError (List Nat) :=
  if buf.length > WRITE_BUF_SIZE then .error .invalidInput
  else .ok (extendFromSlice WRITE_BUF_SIZE q buf)

/-- Mirrors `<SppHandler as Write>::flush`, with the atomic link handle
and the outcome of the underlying `spp.write` call as oracle inputs: when
the handle is nonzero the queued bytes are handed to `spp.write`
(`make_contiguous` does not change the content); if that call fails the
whole queue is cleared (`write_buf.clear()`) and `ConnectionReset` is
returned; a zero handle transmits nothing. Returns the queue afterwards
and the error, if any. -/
def flush (handle : Nat) (sppWriteOk : Bool) (q : List Nat) :
    List Nat × Option SppIoError :=
  if handle > 0 then
    if sppWriteOk then (q, none)
    else ([], some .connectionReset)
  else (q, none)

/-- Mirrors `<SppHandler as Write>::write`: `extend_write_buf(buf)` then
`flush()`, each propagating its error via `?`; on success the result is
`Ok(buf.len())`. Returns the queue afterwards and the write result. -/
def write (handle : Nat) (sppWriteOk : Bool) (q buf : List Nat) :
    List Nat × Except SppIoError Nat :=
  match extend_write_buf q buf with
  | .error e => (q, .error e)
  | .ok q2 =>
    match flush handle sppWriteOk q2 with
    | (q3, some e) => (q3, .error e)
    | (q3, none) => (q3, .ok buf.length)

/-- Mirrors `CircularBuffer::truncate_front(len)`: keeps the last `keep`
elements, dropping the rest from the front; no effect when `keep` is at
least the current length. -/
def truncate_front (q : List Nat) (keep : Nat) : List Nat :=
  q.drop (q.length - keep)

/-- Mirrors the `SppEvent::Write` success branch of `handle_spp`: the
acknowledged `length` is compared with the current queue length
(`write_buf_length`); when it is larger, a warning is logged and
`write_buf_length` is raised to `length` (the larger value is taken as
authoritative); then the queue is cut to its last
`write_buf_length - length` bytes with `truncate_front`. -/
def writeAckQueue (q : List Nat) (length : Nat) : List Nat :=
  let write_buf_length := q.length
  let write_buf_length :=
    if length > write_buf_length then length else write_buf_length
  truncate_front q (write_buf_length - length)

/-! ## Retry/Recovery Governor
(src/spp_handler.rs, `SppEvent::DiscoveryComp` failure branch) -/

/-- Result of `elm_nvs.get_u8(NVS_DISC_FAIL_COUNT)`: a storage error
(`Err(_)`), a missing key (`Ok(None)`), or a stored counter value
(`Ok(Some(n))`, with `n` a `u8`). -/
inductive NvsGet
  | storageErr
  | absent
  | val (n : Nat)
deriving DecidableEq, Repr

/-- Mirrors `get_u8(..).unwrap_or(Some(0)).or(Some(0))`: a storage error
collapses to `Some(0)` via `unwrap_or`, a missing key collapses to
`Some(0)` via `or`, and a stored value passes through both combinators. -/
def counterOfGet : NvsGet → Option Nat
  | .storageErr => some 0
  | .absent => some 0
  | .val n => some n

/-- Observable outcome of one run of the discovery-failure branch: the
value written to the persisted counter (`none` when it is left untouched),
whether a process restart is forced (`panic!`), and whether the continuous
fatal LED pattern (`LedBlink::Error(4)`) is selected. The branch always
first sends a short `LedBlink::Times(4)` pattern and sleeps 3500 ms; that
prologue changes no modelled state. -/
structure GovernorOutcome where
  persisted : Option Nat
  restart : Bool
  fatalLed : Bool
deriving DecidableEq, Repr

/-- Mirrors the failure arm of `SppEvent::DiscoveryComp`:
`if let Some(n) = get_u8(..).unwrap_or(Some(0)).or(Some(0)).filter(|n| n <= &2)`
then `set_u8(.., n + 1)` and `panic!` (process restart); in the `else`
path the counter is left untouched and `LedBlink::Error(4)` is sent. -/
def discoveryFailStep (get : NvsGet) : GovernorOutcome :=
  match (counterOfGet get).filter (fun n => decide (n ≤ 2)) with
  | some n => ⟨some (n + 1), true, false⟩
  | none => ⟨none, false, true⟩

/-! ## Elm327::setup (src/elm327.rs, lines 28-66) -/

/-- The literal command strings written by `Elm327::setup`, in source
order. -/
def setupCommands : List String :=
  ["??", "ATZ", "ATE 0", "STP 34", "ATI", "ATH 1", "ATCAF 1", "ATS 1", "ATSH DA10F1"]

/-- One `write_request`/`read_response()` round trip per pending command:
`readOk k` tells whether the `k`-th `read_response()` call succeeds; on a
failure the `?` operator aborts the rest of the sequence. (`write_request`
failures abort identically through `?`; the oracle covers the read side,
with writes modelled as succeeding.) Returns the commands actually
written, in order, and whether the whole sequence completed. -/
def setupGo (readOk : Nat → Bool) : Nat → List String → List String × Bool
  | _, [] => ([], true)
  | k, c :: rest =>
    if readOk k then
      let (ws, ok) := setupGo readOk (k + 1) rest
      (c :: ws, ok)
    else ([c], false)

/-- Mirrors `Elm327::setup`: the fixed command sequence of
`setupCommands`, each command written and followed by exactly one
response read, aborting at the first failed read with no per-step
retry. -/
def setup (readOk : Nat → Bool) : List String × Bool :=
  setupGo readOk 0 setupCommands

/-! ## HTTP /post handler (src/main.rs, lines 248-279) -/

/-- Outcome of the `/post` handler: either HTTP status 413
("Request too big"), or an OK response carrying the response text the
protocol engine produced for the forwarded payload. -/
inductive PostOutcome
  | rejected413
  | replied (forwarded : List Nat) (response : String)
deriving DecidableEq, Repr

/-- Mirrors the `/post` handler closure of `main()`: `len` is
`content_len().unwrap_or(0)`; when `len > 250` the handler answers status
413 before the ELM327 engine is touched; otherwise the first `len`
payload bytes are read into `buf`, forwarded verbatim to
`write_request(&buf)`, and the `read_response()` text is written back
verbatim. The `engine` oracle maps the forwarded bytes to the decoded
response text of the `write_request`/`read_response` pair. -/
def postHandler (contentLen : Option Nat) (payload : Nat → Nat)
    (engine : List Nat → String) : PostOutcome :=
  let len := contentLen.getD 0
  if len > 250 then .rejected413
  else
    let buf := (List.range len).map payload
    .replied buf (engine buf)

/-! ## Helper lemmas -/

theorem filterChunk_append (a b : List Nat) :
    filterChunk (a ++ b) = filterChunk a ++ filterChunk b := by
  simp [filterChunk, List.filter_append]

theorem filterChunk_flatten (l : List (List Nat)) :
    filterChunk l.flatten = (l.map filterChunk).flatten := by
  induction l with
  | nil => simp [filterChunk]
  | cons c rest ih => simp [filterChunk_append, ih]

/-- When none of the `fuel` chunks starting at `idx` ends in the raw prompt
byte, the loop runs its full budget: it reads exactly `fuel` more chunks
and accumulates their filtered bytes, then exits without an error. -/
theorem readLoop_cap (chunks : Nat → List Nat) :
    ∀ (fuel idx : Nat) (acc : List Nat) (reads : Nat),
      (∀ j, j ∈ List.range' idx fuel → promptTerminated (chunks j) = false) →
      readLoop chunks fuel idx acc reads =
        (acc ++ ((List.range' idx fuel).map (fun j => filterChunk (chunks j))).flatten,
         reads + fuel) := by
  intro fuel
  induction fuel with
  | zero => intro idx acc reads _; simp [readLoop]
  | succ f ih =>
    intro idx acc reads h
    have h0 : promptTerminated (chunks idx) = false := by
      apply h; simp [List.range'_succ]
    simp only [readLoop, h0, if_neg Bool.false_ne_true]
    rw [ih (idx + 1) _ _ (fun j hj => h j (by simp [List.mem_range'_1] at hj ⊢; omega))]
    simp [List.range'_succ, List.append_assoc]
    omega

/-- When chunk `idx + i` is the first chunk (from `idx` on) whose raw last
byte is the prompt, and the loop has more than `i` iterations of budget
left, it stops right after reading that chunk: `i + 1` more reads, with
every read chunk filtered onto the accumulator. -/
theorem readLoop_prompt (chunks : Nat → List Nat) :
    ∀ (i fuel idx : Nat) (acc : List Nat) (reads : Nat),
      i < fuel →
      (∀ j, j ∈ List.range' idx i → promptTerminated (chunks j) = false) →
      promptTerminated (chunks (idx + i)) = true →
      readLoop chunks fuel idx acc reads =
        (acc ++ ((List.range' idx (i + 1)).map (fun j => filterChunk (chunks j))).flatten,
         reads + (i + 1)) := by
  intro i
  induction i with
  | zero =>
    intro fuel idx acc reads hf _ hterm
    match fuel, hf with
    | f + 1, _ =>
      simp only [readLoop]
      rw [if_pos (by simpa using hterm)]
      simp [List.range'_succ]
  | succ i ih =>
    intro fuel idx acc reads hf hfirst hterm
    match fuel, hf with
    | f + 1, hf =>
      have h0 : promptTerminated (chunks idx) = false := by
        apply hfirst; simp [List.range'_succ]
      simp only [readLoop, h0, if_neg Bool.false_ne_true]
      rw [ih f (idx + 1) _ _ (by omega)
            (fun j hj => hfirst j (by simp [List.mem_range'_1] at hj ⊢; omega))
            (by rw [show idx + 1 + i = idx + (i + 1) by omega]; exact hterm)]
      simp [List.range'_succ, List.append_assoc]
      omega

/-- With every read succeeding, `setupGo` walks the whole command list:
each command is written and acknowledged, none is repeated or skipped. -/
theorem setupGo_all_ok (readOk : Nat → Bool) (h : ∀ j, readOk j = true) :
    ∀ (cmds : List String) (k : Nat), setupGo readOk k cmds = (cmds, true) := by
  intro cmds
  induction cmds with
  | nil => intro k; simp [setupGo]
  | cons c rest ih => intro k; simp [setupGo, h k, ih (k + 1)]

/-- When the `i`-th remaining read fails (all earlier ones succeeding),
`setupGo` stops right after the failing round trip: the commands written
are exactly the first `i + 1` pending ones, and the run reports failure. -/
theorem setupGo_fail_at (readOk : Nat → Bool) :
    ∀ (cmds : List String) (k i : Nat),
      i < cmds.length →
      (∀ j, j < i → readOk (k + j) = true) →
      readOk (k + i) = false →
      setupGo readOk k cmds = (cmds.take (i + 1), false) := by
  intro cmds
  induction cmds with
  | nil => intro k i hi; simp at hi
  | cons c rest ih =>
    intro k i hi hok hfail
    cases i with
    | zero =>
      have h0 : readOk k = false := by simpa using hfail
      simp [setupGo, h0]
    | succ i =>
      have h0 : readOk k = true := by simpa using hok 0 (Nat.succ_pos i)
      have hrec := ih (k + 1) i (by simpa using hi)
        (fun j hj => by
          have := hok (j + 1) (by omega)
          simpa [show k + (j + 1) = k + 1 + j by omega] using this)
        (by simpa [show k + (i + 1) = k + 1 + i by omega] using hfail)
      simp [setupGo, h0, hrec]

/-! ## Claims -/

/-- Claim C1: for every response stream whose first prompt-terminated
chunk arrives within the loop's read budget, `read_response()` returns the
raw device bytes of all chunks up to and including that chunk with every
carriage-return, line-feed and prompt byte removed, terminating at the
first chunk whose final raw (unfiltered) byte is the prompt byte — the
termination test looks at the raw chunk, after filtering has already run
on it; and for the single raw input chunk `ATZ\r\rOK\r\r>` it returns the
text `ATZOK` (as ASCII bytes, which is what `String::from_utf8` decodes to
the text `ATZOK`) after one read. -/
theorem claim_C1_read_response_strips_and_terminates
    (chunks : Nat → List Nat) (i : Nat) (hbound : i + 1 < 50)
    (hfirst : ∀ j, j < i → promptTerminated (chunks j) = false)
    (hterm : promptTerminated (chunks i) = true) :
    read_response chunks =
      (filterChunk (((List.range' 0 (i + 1)).map chunks).flatten), i + 1) ∧
    read_response (fun _ => asciiBytes "ATZ\r\rOK\r\r>") = (asciiBytes "ATZOK", 1) := by
  constructor
  · rw [read_response, readLoop_prompt chunks i 49 0 [] 0 (by omega)
        (fun j hj => hfirst j (by simp [List.mem_range'_1] at hj; omega))
        (by simpa using hterm)]
    simp [filterChunk_flatten, List.map_map, Function.comp_def]
  · decide

theorem claim_C1_witness :
    read_response (fun _ => asciiBytes "ATZ\r\rOK\r\r>") =
      (filterChunk (((List.range' 0 (0 + 1)).map (fun _ : Nat => asciiBytes "ATZ\r\rOK\r\r>")).flatten),
       0 + 1) ∧
    read_response (fun _ => asciiBytes "ATZ\r\rOK\r\r>") = (asciiBytes "ATZOK", 1) :=
  claim_C1_read_response_strips_and_terminates (fun _ => asciiBytes "ATZ\r\rOK\r\r>") 0
    (by omega) (fun j hj => absurd hj (by omega)) (by decide)

/-- Claim C2 counterexample: on the reply stream that always delivers the
single byte `A` (never a prompt byte), `read_response()` performs exactly
49 chunk reads — not the 50 the claim states — because the counter check
`loop_count == 50` sits before the read of that iteration; it then returns
the 49 accumulated bytes without raising an error. -/
theorem claim_C2_counterexample :
    read_response (fun _ => [65]) = (List.replicate 49 65, 49) := by
  decide

/-- Claim C2 (amended): for every reply stream that never contains the
prompt byte, `read_response()` performs exactly 49 chunk reads — the
iteration whose incremented counter reaches 50 breaks before reading — and
then returns the bytes accumulated so far without raising an error, rather
than blocking forever. -/
theorem claim_C2_amended_49_reads
    (chunks : Nat → List Nat)
    (hnoprompt : ∀ j, j < 49 → promptTerminated (chunks j) = false) :
    read_response chunks =
      (((List.range' 0 49).map (fun j => filterChunk (chunks j))).flatten, 49) := by
  rw [read_response, readLoop_cap chunks 49 0 [] 0
      (fun j hj => hnoprompt j (by simp [List.mem_range'_1] at hj; omega))]
  simp

theorem claim_C2_witness :
    read_response (fun _ => [65]) =
      (((List.range' 0 49).map (fun j => filterChunk ((fun _ : Nat => [65]) j))).flatten, 49) :=
  claim_C2_amended_49_reads (fun _ => [65]) (fun _ _ => rfl)

/-- Claim C3: on a successful write-acknowledgment reporting delivered
length `d` against a queue `q`, the dispatcher removes exactly
`min d q.length` bytes from the front (the larger of the two lengths is
taken as authoritative when they disagree), so the remaining queue is
`q.drop (min d q.length)` and its length is `q.length - min d q.length`,
never negative. -/
theorem claim_C3_write_ack (q : List Nat) (d : Nat) :
    writeAckQueue q d = q.drop (min d q.length) ∧
    (writeAckQueue q d).length = q.length - min d q.length := by
  have h : writeAckQueue q d = q.drop (min d q.length) := by
    simp only [writeAckQueue, truncate_front]
    by_cases hd : d > q.length
    · simp only [if_pos hd]
      congr 1
      omega
    · simp only [if_neg hd]
      congr 1
      omega
  refine ⟨h, ?_⟩
  rw [h, List.length_drop]

/-- Claim C4: on a discovery failure, a readable persisted counter
`n ≤ 2` (an absent key counting as 0) makes the governor persist `n + 1`
and force an immediate restart without the fatal pattern, while `n > 2`
leaves the counter untouched, switches to the continuous fatal pattern and
does not restart; in particular from an absent/zero counter three
consecutive failures persist 1, 2, 3 — each restarting — and a fourth
failure at 3 halts with the counter still at 3. -/
theorem claim_C4_governor :
    (∀ n, n ≤ 2 → discoveryFailStep (.val n) = ⟨some (n + 1), true, false⟩) ∧
    (∀ n, n > 2 → discoveryFailStep (.val n) = ⟨none, false, true⟩) ∧
    discoveryFailStep .absent = ⟨some 1, true, false⟩ ∧
    discoveryFailStep (.val 1) = ⟨some 2, true, false⟩ ∧
    discoveryFailStep (.val 2) = ⟨some 3, true, false⟩ ∧
    discoveryFailStep (.val 3) = ⟨none, false, true⟩ := by
  refine ⟨?_, ?_, by decide, by decide, by decide, by decide⟩
  · intro n hn
    have hd : decide (n ≤ 2) = true := by simpa using hn
    simp [discoveryFailStep, counterOfGet, Option.filter, hd]
  · intro n hn
    have hd : decide (n ≤ 2) = false := by simpa using hn
    simp [discoveryFailStep, counterOfGet, Option.filter, hd]

theorem claim_C4_witness :
    discoveryFailStep (.val 0) = ⟨some 1, true, false⟩ ∧
    discoveryFailStep (.val 3) = ⟨none, false, true⟩ :=
  ⟨claim_C4_governor.1 0 (by decide), claim_C4_governor.2.1 3 (by decide)⟩

/-- Claim C5 counterexample: `Elm327::setup` performs nine
request/response round trips, not the eleven the claim states — the
command list has exactly nine entries. -/
theorem claim_C5_counterexample :
    setupCommands.length = 9 ∧ setupCommands.length ≠ 11 := by
  decide

/-- Claim C5 (amended): `setup()` performs an ordered, unconditional
sequence of nine request/response round trips whose commands are,
literally and in order, `??`, `ATZ`, `ATE 0`, `STP 34`, `ATI`, `ATH 1`,
`ATCAF 1`, `ATS 1`, `ATSH DA10F1`, each followed by one response read;
when every read succeeds all nine are written in that order, and the first
response-read failure aborts the remaining sequence immediately with no
per-step retry. -/
theorem claim_C5_amended_setup :
    setupCommands =
      ["??", "ATZ", "ATE 0", "STP 34", "ATI", "ATH 1", "ATCAF 1", "ATS 1",
       "ATSH DA10F1"] ∧
    setupCommands.length = 9 ∧
    (∀ readOk, (∀ j, readOk j = true) → setup readOk = (setupCommands, true)) ∧
    (∀ readOk k, k < 9 → (∀ j, j < k → readOk j = true) → readOk k = false →
      setup readOk = (setupCommands.take (k + 1), false)) := by
  refine ⟨rfl, rfl, ?_, ?_⟩
  · intro readOk h
    exact setupGo_all_ok readOk h setupCommands 0
  · intro readOk k hk hok hfail
    exact setupGo_fail_at readOk setupCommands 0 k
      (by simp [setupCommands]; omega)
      (fun j hj => by simpa using hok j hj)
      (by simpa using hfail)

theorem claim_C5_witness :
    setup (fun _ => true) = (setupCommands, true) :=
  claim_C5_amended_setup.2.2.1 (fun _ => true) (fun _ => rfl)

/-- Claim C6: a `write(buf)` with `buf` longer than `WRITE_BUF_SIZE = 250`
fails with the input-size error and leaves the outbound queue unmutated;
otherwise all of `buf` is appended (it is a suffix of the resulting
buffer), a flush is attempted, and the returned count — when the call
succeeds — is always the full `buf.length`, never a partial count. -/
theorem claim_C6_write (handle : Nat) (sppWriteOk : Bool) (q buf : List Nat) :
    (buf.length > WRITE_BUF_SIZE →
      write handle sppWriteOk q buf = (q, .error .invalidInput)) ∧
    (buf.length ≤ WRITE_BUF_SIZE →
      buf <:+ extendFromSlice WRITE_BUF_SIZE q buf) ∧
    (buf.length ≤ WRITE_BUF_SIZE → (handle = 0 ∨ sppWriteOk = true) →
      write handle sppWriteOk q buf =
        (extendFromSlice WRITE_BUF_SIZE q buf, .ok buf.length)) ∧
    (∀ n, (write handle sppWriteOk q buf).2 = .ok n → n = buf.length) := by
  refine ⟨?_, ?_, ?_, ?_⟩
  · intro h
    simp [write, extend_write_buf, h]
  · intro h
    have hk : (q ++ buf).length - WRITE_BUF_SIZE ≤ q.length := by
      simp [List.length_append]; omega
    simp only [extendFromSlice]
    rw [List.drop_append_of_le_length hk]
    exact List.suffix_append _ _
  · intro h hok
    have hle : ¬ buf.length > WRITE_BUF_SIZE := by omega
    rcases hok with h0 | hs
    · simp [write, extend_write_buf, flush, hle, h0]
    · by_cases hh : handle > 0 <;>
        simp [write, extend_write_buf, flush, hle, hs, hh]
  · intro n hn
    unfold write at hn
    split at hn
    · simp at hn
    · split at hn
      · simp at hn
      · simp at hn
        omega

set_option maxRecDepth 4000 in
theorem claim_C6_witness :
    write 1 true [] (List.replicate 251 0) = ([], .error .invalidInput) ∧
    write 1 true [] [7] = (extendFromSlice WRITE_BUF_SIZE [] [7], .ok 1) :=
  ⟨(claim_C6_write 1 true [] (List.replicate 251 0)).1 (by simp [WRITE_BUF_SIZE]),
   (claim_C6_write 1 true [] [7]).2.2.1 (by simp [WRITE_BUF_SIZE]) (Or.inr rfl)⟩

set_option maxRecDepth 4000 in
/-- Claim C7 counterexample: appending one byte to a full 250-byte queue
would make the total 251 > `WRITE_BUF_SIZE`, yet `extend_write_buf` does
not reject it — it succeeds and silently drops the oldest queued byte from
the front, so the claimed reject-before-mutation behavior is false. -/
theorem claim_C7_counterexample :
    extend_write_buf (List.replicate 250 0) [1] =
      .ok (List.replicate 249 0 ++ [1]) ∧
    List.replicate 249 0 ++ [1] ≠ List.replicate 250 0 ++ [1] := by
  constructor
  · rfl
  · intro h
    have hlen := congrArg List.length h
    simp at hlen

/-- Claim C7 (amended): the outbound queue length never exceeds
`WRITE_BUF_SIZE` — every successful append yields a queue of at most 250
bytes — and an append whose slice alone exceeds `WRITE_BUF_SIZE` is
rejected before any mutation; but an append that merely makes the total
queued length exceed `WRITE_BUF_SIZE` is accepted, silently dropping the
oldest queued bytes from the front so that exactly the last 250 bytes
remain. -/
theorem claim_C7_amended_append (q buf : List Nat) :
    (∀ q2, extend_write_buf q buf = .ok q2 → q2.length ≤ WRITE_BUF_SIZE) ∧
    (buf.length > WRITE_BUF_SIZE → extend_write_buf q buf = .error .invalidInput) ∧
    (buf.length ≤ WRITE_BUF_SIZE →
      extend_write_buf q buf =
        .ok ((q ++ buf).drop (q.length + buf.length - WRITE_BUF_SIZE))) := by
  refine ⟨?_, ?_, ?_⟩
  · intro q2 h
    unfold extend_write_buf at h
    split at h
    · simp at h
    · simp only [Except.ok.injEq] at h
      subst h
      simp [extendFromSlice, List.length_drop]
      omega
  · intro h
    simp [extend_write_buf, h]
  · intro h
    have hle : ¬ buf.length > WRITE_BUF_SIZE := by omega
    simp [extend_write_buf, extendFromSlice, hle, List.length_append]

theorem claim_C7_witness :
    extend_write_buf [5] [6] =
      .ok (([5] ++ [6]).drop ([5].length + [6].length - WRITE_BUF_SIZE)) :=
  (claim_C7_amended_append [5] [6]).2.2 (by decide)

/-- Claim C8: the `/post` handler rejects payloads longer than 250 bytes
with status 413 before the protocol engine is consulted (the outcome is
independent of the engine oracle), and forwards every payload of at most
250 bytes verbatim to `write_request`, returning the engine's decoded
response text verbatim. -/
theorem claim_C8_post (len : Nat) (payload : Nat → Nat)
    (engine engine2 : List Nat → String) :
    (len > 250 → postHandler (some len) payload engine = .rejected413) ∧
    (len > 250 →
      postHandler (some len) payload engine =
        postHandler (some len) payload engine2) ∧
    (len ≤ 250 →
      postHandler (some len) payload engine =
        .replied ((List.range len).map payload)
          (engine ((List.range len).map payload))) := by
  refine ⟨?_, ?_, ?_⟩ <;> intro h
  · simp [postHandler, h]
  · simp [postHandler, h]
  · have hle : ¬ len > 250 := by omega
    simp [postHandler, hle]

theorem claim_C8_witness :
    postHandler (some 300) (fun _ => 0) (fun _ => "OK") = .rejected413 ∧
    postHandler (some 200) (fun _ => 7) (fun _ => "OK") =
      .replied ((List.range 200).map (fun _ => 7)) "OK" :=
  ⟨(claim_C8_post 300 (fun _ => 0) (fun _ => "OK") (fun _ => "OK")).1 (by omega),
   (claim_C8_post 200 (fun _ => 7) (fun _ => "OK") (fun _ => "OK")).2.2 (by omega)⟩

/-- Claim C9: when the link handle is nonzero and the radio-stack
`spp.write` call fails during `flush`, the entire outbound queue is
cleared — every pending byte is discarded, whatever earlier writes had
queued — and the call returns the connection-reset error; the queue is not
left unchanged on this transport error. -/
theorem claim_C9_flush_clears (handle : Nat) (q : List Nat) (hconn : handle > 0) :
    flush handle false q = ([], some .connectionReset) := by
  simp [flush, hconn]

theorem claim_C9_witness :
    flush 1 false [10, 20, 30] = ([], some SppIoError.connectionReset) :=
  claim_C9_flush_clears 1 [10, 20, 30] (by decide)

/-- Claim C10: when reading the persisted failure counter returns a
storage error (as opposed to the key merely being absent),
`unwrap_or(Some(0))` makes the governor treat the counter as 0: the
discovery failure still persists 1 and restarts the process instead of
halting, so the fatal halt is never reached while reads keep failing. -/
theorem claim_C10_storage_error_restarts :
    discoveryFailStep .storageErr = ⟨some 1, true, false⟩ := by
  decide

end BtObdGw
